import Mathlib

/-!
Shallow embedding of the nat-updater-aws-connector repository.

Part 1 embeds the reconciliation algorithm of `src/main.go`
(`routingTableBySubnetID`, `createRouteTable`, `createNatGatewayRoutes`,
`routeTableIsConfigured`, `updateNat`).  The four remote EC2 operations the
code performs (`DescribeRouteTables` filtered by subnet association,
`CreateRouteTable`, `AssociateRouteTable`, `CreateRoute`) are abstracted as an
`Adapter`: stateful response functions over an abstract provider state `S`
with error type `E`, mirroring the `*ec2.EC2` service handle.  Each embedded
function additionally returns the ordered list of adapter calls it issued
(`Call`), so that claims about which calls a reconciliation run issues are
statable.  Pointers of the Go AWS SDK (`*string`) become `Option String`;
dereferencing a nil pointer (a Go panic) is made explicit in result types.

Part 2 instantiates the adapter with an honest model of the provider
(`awsAdapter` over `AWSState`): route tables with identifiers, associated
subnets and routes, where creation generates a fresh identifier.

Part 3 embeds the `Event` of `src/event.go`: the struct, `Validate`,
`Process`, `Error` and `Complete`, with NATS publications modelled as a list
of (subject, payload) pairs and JSON (de)serialization modelled by a concrete
encoder for the flat struct plus abstract (de)serializer parameters where the
code handles (de)serialization failure.
-/

/-- Model of `ec2.Route` restricted to the fields the code reads:
`DestinationCidrBlock *string` and `NatGatewayId *string`. -/
structure Route where
  destinationCidrBlock : Option String
  natGatewayId : Option String
deriving DecidableEq, Repr

/-- Model of `ec2.RouteTable` restricted to the fields the code reads:
`RouteTableId *string` and `Routes`. -/
structure RouteTable where
  routeTableId : Option String
  routes : List Route
deriving DecidableEq, Repr

/-- One remote EC2 call issued by the code, with the arguments the code
passes (`svc.DescribeRouteTables` filtered by association.subnet-id,
`svc.CreateRouteTable`, `svc.AssociateRouteTable`, `svc.CreateRoute`). -/
inductive Call where
  | describeRouteTables (subnet : String)
  | createRouteTable (vpc : String)
  | associateRouteTable (rtID : Option String) (subnet : String)
  | createRoute (rtID : Option String) (destCidr gwID : String)
deriving DecidableEq, Repr

/-- Whether a call carries the given subnet id as an argument.  Only the
describe filter and the association name a subnet. -/
def Call.mentionsSubnet : Call → String → Bool
  | .describeRouteTables n, m => n = m
  | .associateRouteTable _ n, m => n = m
  | _, _ => false

/-- The four remote operations behind the `*ec2.EC2` handle, as stateful
response functions: given the provider state, each returns the response (or a
provider error, surfaced unchanged) and the next provider state. -/
structure Adapter (S E : Type) where
  describeRouteTables : String → S → Except E (List RouteTable) × S
  createRouteTable : String → S → Except E RouteTable × S
  associateRouteTable : Option String → String → S → Except E Unit × S
  createRoute : Option String → String → String → S → Except E Unit × S

/-- Embedding of `routingTableBySubnetID` (src/main.go lines 45-67): describe
route tables filtered by the subnet association; on provider error return it;
on an empty response return absent (`none`) with no error; otherwise return
the first table of the response. -/
def routingTableBySubnetID {S E : Type} (svc : Adapter S E) (subnet : String)
    (s : S) : List Call × Except E (Option RouteTable) × S :=
  match svc.describeRouteTables subnet s with
  | (.error e, s₁) => ([.describeRouteTables subnet], .error e, s₁)
  | (.ok tables, s₁) =>
    ([.describeRouteTables subnet],
     .ok (match tables with | [] => none | rt :: _ => some rt), s₁)

/-- Embedding of `createRouteTable` (src/main.go lines 69-99): find the
table associated with the subnet; if present use it as is; otherwise create a
table in the vpc and associate it with the subnet, propagating the first
provider error. -/
def createRouteTable {S E : Type} (svc : Adapter S E) (vpc subnet : String)
    (s : S) : List Call × Except E RouteTable × S :=
  match routingTableBySubnetID svc subnet s with
  | (t, .error e, s₁) => (t, .error e, s₁)
  | (t, .ok (some rt), s₁) => (t, .ok rt, s₁)
  | (t, .ok none, s₁) =>
    match svc.createRouteTable vpc s₁ with
    | (.error e, s₂) => (t ++ [.createRouteTable vpc], .error e, s₂)
    | (.ok rt, s₂) =>
      match svc.associateRouteTable rt.routeTableId subnet s₂ with
      | (.error e, s₃) =>
        (t ++ [.createRouteTable vpc, .associateRouteTable rt.routeTableId subnet],
         .error e, s₃)
      | (.ok _, s₃) =>
        (t ++ [.createRouteTable vpc, .associateRouteTable rt.routeTableId subnet],
         .ok rt, s₃)

/-- Embedding of `createNatGatewayRoutes` (src/main.go lines 101-114): create
the 0.0.0.0/0 route towards the NAT gateway on the given table. -/
def createNatGatewayRoutes {S E : Type} (svc : Adapter S E) (rt : RouteTable)
    (gwID : String) (s : S) : List Call × Except E Unit × S :=
  match svc.createRoute rt.routeTableId "0.0.0.0/0" gwID s with
  | (.error e, s₁) => ([.createRoute rt.routeTableId "0.0.0.0/0" gwID], .error e, s₁)
  | (.ok _, s₁) => ([.createRoute rt.routeTableId "0.0.0.0/0" gwID], .ok (), s₁)

/-- The scan of `routeTableIsConfigured`'s loop (src/main.go lines 117-121):
`*route.DestinationCidrBlock` is dereferenced for every route reached; when
the destination is 0.0.0.0/0, `*route.NatGatewayId` is dereferenced as well
(Go's && short-circuits).  A nil dereference is a Go panic, modelled as
`none`; otherwise `some` of the boolean the loop computes. -/
def configuredScan (gwID : String) : List Route → Option Bool
  | [] => some false
  | r :: rs =>
    match r.destinationCidrBlock with
    | none => none
    | some d =>
      if d = "0.0.0.0/0" then
        match r.natGatewayId with
        | none => none
        | some g => if g = gwID then some true else configuredScan gwID rs
      else configuredScan gwID rs

/-- Embedding of `routeTableIsConfigured` (src/main.go lines 116-123). -/
def routeTableIsConfigured (rt : RouteTable) (gwID : String) : Option Bool :=
  configuredScan gwID rt.routes

/-- Outcome of processing one subnet (one iteration of `updateNat`'s loop, or
of the whole loop): the nil return, an error return, or a panic raised by the
nil dereference inside `routeTableIsConfigured`. -/
inductive StepRes (E : Type) where
  | ok
  | err (e : E)
  | panicked
deriving DecidableEq, Repr

/-- One iteration of the loop body of `updateNat` (src/main.go lines
132-146) on subnet `n`: find-or-create the route table, skip if the table is
already configured, otherwise create the default route. -/
def natStep {S E : Type} (svc : Adapter S E) (vpc gw n : String) (s : S) :
    List Call × StepRes E × S :=
  match createRouteTable svc vpc n s with
  | (t, .error e, s₁) => (t, .err e, s₁)
  | (t, .ok rt, s₁) =>
    match routeTableIsConfigured rt gw with
    | none => (t, .panicked, s₁)
    | some true => (t, .ok, s₁)
    | some false =>
      match createNatGatewayRoutes svc rt gw s₁ with
      | (t₂, .error e, s₂) => (t ++ t₂, .err e, s₂)
      | (t₂, .ok _, s₂) => (t ++ t₂, .ok, s₂)

/-- The loop of `updateNat` over the routed subnet ids: sequential, stopping
at the first error (or panic), returning nil only after every subnet has been
processed without error. -/
def updateNatGo {S E : Type} (svc : Adapter S E) (vpc gw : String) :
    List String → S → List Call × StepRes E × S
  | [], s => ([], .ok, s)
  | n :: ns, s =>
    match natStep svc vpc gw n s with
    | (t, .ok, s₁) =>
      match updateNatGo svc vpc gw ns s₁ with
      | (t₂, r, s₂) => (t ++ t₂, r, s₂)
    | (t, .err e, s₁) => (t, .err e, s₁)
    | (t, .panicked, s₁) => (t, .panicked, s₁)

/-- Embedding of the `Event` struct of src/event.go: the flat, fully
JSON-serializable value (all fields strings or string lists).  Field names
follow the Go struct; `main.go`'s `updateNat` reads the vpc id, region,
credentials, NAT gateway id and routed network ids. -/
structure Event where
  UUID : String
  BatchID : String
  ProviderType : String
  VPCID : String
  DatacenterRegion : String
  DatacenterAccessKey : String
  DatacenterAccessToken : String
  PublicNetwork : String
  PublicNetworkAWSID : String
  RoutedNetworks : List String
  RoutedNetworkAWSIDs : List String
  NatGatewayAWSID : String
  NatGatewayAllocationID : String
  NatGatewayAllocationIP : String
  InternetGatewayID : String
  ErrorMessage : String
deriving DecidableEq, Repr

/-- Embedding of `updateNat` (src/main.go lines 125-149): the region and
credentials only parameterize the service handle (here the adapter); the loop
runs over the Event's routed network ids with the Event's vpc id and NAT
gateway id. -/
def updateNat {S E : Type} (svc : Adapter S E) (ev : Event) (s : S) :
    List Call × StepRes E × S :=
  updateNatGo svc ev.VPCID ev.NatGatewayAWSID ev.RoutedNetworkAWSIDs s

/-- A route table as the provider stores it: its id, the subnets currently
associated with it, and its routes. -/
structure ProvTable where
  ptId : String
  ptSubnets : List String
  ptRoutes : List Route
deriving DecidableEq, Repr

/-- The provider's state: the route tables plus a counter from which fresh
route table ids are generated. -/
structure AWSState where
  tables : List ProvTable
  counter : Nat
deriving DecidableEq, Repr

/-- Fresh route table id for creation counter `k`.  The provider guarantees
ids are unique; injectivity is the only property used. -/
def genId (k : Nat) : String :=
  "rtb-" ++ String.mk (List.replicate k 'x')

/-- The view of a stored table that `DescribeRouteTables` returns. -/
def ProvTable.toRouteTable (t : ProvTable) : RouteTable :=
  ⟨some t.ptId, t.ptRoutes⟩

/-- The tables currently associated with subnet `n`, in storage order, as a
describe-by-association filter returns them. -/
def tablesFor (n : String) (s : AWSState) : List ProvTable :=
  s.tables.filter (fun t => decide (n ∈ t.ptSubnets))

/-- The provider's effect of `AssociateRouteTable` on one stored table: the
subnet is added to the table carrying the given id. -/
def assocUpdate (rtID : Option String) (n : String) (t : ProvTable) : ProvTable :=
  if some t.ptId = rtID then { t with ptSubnets := t.ptSubnets ++ [n] } else t

/-- The provider's effect of `CreateRoute` on one stored table: the route is
appended to the table carrying the given id. -/
def routeUpdate (rtID : Option String) (dest gw : String) (t : ProvTable) : ProvTable :=
  if some t.ptId = rtID then { t with ptRoutes := t.ptRoutes ++ [⟨some dest, some gw⟩] } else t

/-- Honest model of the provider: describe filters by association; create
appends an empty table under a fresh id; associate adds the subnet to every
table carrying the given id; create-route appends the NAT route to every
table carrying the given id.  No operation fails. -/
def awsAdapter : Adapter AWSState String where
  describeRouteTables n s := (.ok ((tablesFor n s).map ProvTable.toRouteTable), s)
  createRouteTable _vpc s :=
    (.ok ⟨some (genId s.counter), []⟩,
     ⟨s.tables ++ [⟨genId s.counter, [], []⟩], s.counter + 1⟩)
  associateRouteTable rtID n s :=
    (.ok (), ⟨s.tables.map (assocUpdate rtID n), s.counter⟩)
  createRoute rtID dest gw s :=
    (.ok (), ⟨s.tables.map (routeUpdate rtID dest gw), s.counter⟩)

/-- The default route towards gateway `gw` as `createNatGatewayRoutes`
creates it. -/
def defRoute (gw : String) : Route := ⟨some "0.0.0.0/0", some gw⟩

/-- The ids the provider will generate in the future do not collide with the
ids already stored. -/
def FreshIds (s : AWSState) : Prop :=
  ∀ t ∈ s.tables, ∀ k, s.counter ≤ k → t.ptId ≠ genId k

/-- Subnet `n` has no route table associated in the provider. -/
def unassociated (n : String) (s : AWSState) : Prop := tablesFor n s = []

/-- The provider state after the create/associate/create-route block for an
unassociated subnet `n`: one fresh table associated with `n`, holding exactly
the default route to `gw`. -/
def stepState (n gw : String) (s : AWSState) : AWSState :=
  ⟨s.tables ++ [⟨genId s.counter, [n], [defRoute gw]⟩], s.counter + 1⟩

/-- The calls one iteration issues for an unassociated subnet: the lookup and
the three mutating calls, in the source order. -/
def natBlock (vpc gw n : String) (c : Nat) : List Call :=
  [.describeRouteTables n, .createRouteTable vpc,
   .associateRouteTable (some (genId c)) n,
   .createRoute (some (genId c)) "0.0.0.0/0" gw]

/-- Invariant used for second-run reasoning: exactly one table is associated
with `n`; it holds exactly the default route to `gw`; its id is carried by no
other table; and stored ids remain fresh-id free. -/
def SubnetInv (n gw : String) (s : AWSState) : Prop :=
  FreshIds s ∧ ∃ i,
    tablesFor n s = [⟨i, [n], [defRoute gw]⟩] ∧
    ∀ t ∈ s.tables, t.ptId = i → t = ⟨i, [n], [defRoute gw]⟩

/-- The error-report channel name (src/event.go, `nat.update.aws.error`). -/
def errorSubject : String := "nat.update.aws.error"

/-- The done-report channel name (src/event.go, `nat.update.aws.done`). -/
def doneSubject : String := "nat.update.aws.done"

/-- A published message: subject and payload bytes. -/
abbrev Pub := String × String

/-- JSON string encoding used by `encoding/json` for the Event's string
fields, modelled with quote and backslash escaping. -/
def escChar (c : Char) : String :=
  if c = '"' then "\\\"" else if c = '\\' then "\\\\" else String.singleton c

/-- A JSON string literal. -/
def jsonString (s : String) : String :=
  "\"" ++ String.join (s.data.map escChar) ++ "\""

/-- A JSON array of string literals. -/
def jsonStrList (xs : List String) : String :=
  "[" ++ String.intercalate "," (xs.map jsonString) ++ "]"

/-- The serialization of every Event field except the trailing optional
error field, with the wire names and order of the Go struct tags. -/
def marshalEventMain (ev : Event) : String :=
  "\x7b\"_uuid\":" ++ jsonString ev.UUID ++
  ",\"_batch_id\":" ++ jsonString ev.BatchID ++
  ",\"_type\":" ++ jsonString ev.ProviderType ++
  ",\"vpc_id\":" ++ jsonString ev.VPCID ++
  ",\"datacenter_region\":" ++ jsonString ev.DatacenterRegion ++
  ",\"datacenter_access_key\":" ++ jsonString ev.DatacenterAccessKey ++
  ",\"datacenter_access_token\":" ++ jsonString ev.DatacenterAccessToken ++
  ",\"public_network\":" ++ jsonString ev.PublicNetwork ++
  ",\"public_network_aws_id\":" ++ jsonString ev.PublicNetworkAWSID ++
  ",\"routed_networks\":" ++ jsonStrList ev.RoutedNetworks ++
  ",\"routed_networks_aws_ids\":" ++ jsonStrList ev.RoutedNetworkAWSIDs ++
  ",\"nat_gateway_aws_id\":" ++ jsonString ev.NatGatewayAWSID ++
  ",\"nat_gateway_allocation_id\":" ++ jsonString ev.NatGatewayAllocationID ++
  ",\"nat_gateway_allocation_ip\":" ++ jsonString ev.NatGatewayAllocationIP ++
  ",\"internet_gateway_id\":" ++ jsonString ev.InternetGatewayID

/-- Model of `json.Marshal` on the Event struct: field order follows the
struct, and the `error` field carries `omitempty`, so it is present exactly
when `ErrorMessage` is non-empty (src/event.go struct tags). -/
def marshalEvent (ev : Event) : String :=
  marshalEventMain ev ++
  (if ev.ErrorMessage = "" then ""
   else ",\"error\":" ++ jsonString ev.ErrorMessage) ++ "\x7d"

/-- Embedding of `Validate` (src/event.go): first violated invariant wins,
in the source order, with the source's fixed messages; `none` models the nil
return. -/
def Event.Validate (ev : Event) : Option String :=
  if ev.VPCID = "" then some "Datacenter VPC ID invalid"
  else if ev.DatacenterRegion = "" then some "Datacenter Region invalid"
  else if ev.DatacenterAccessKey = "" ∨ ev.DatacenterAccessToken = "" then
    some "Datacenter credentials invalid"
  else if ev.PublicNetworkAWSID = "" then some "Network id invalid"
  else if ev.RoutedNetworkAWSIDs.length < 1 then some "Routed networks are empty"
  else none

/-- Embedding of `Process` (src/event.go), parameterized by the behaviour of
`json.Unmarshal` on the raw payload: on success the Event is loaded and
nothing is published; on failure the raw bytes are republished unchanged to
the error channel and the deserialization error is returned.  The result is
(event after the call, returned error, publications in order). -/
def processEv (unmarshal : String → Except String Event) (ev : Event)
    (data : String) : Event × Option String × List Pub :=
  match unmarshal data with
  | .ok ev₁ => (ev₁, none, [])
  | .error e => (ev, some e, [(errorSubject, data)])

/-- Embedding of `Error` (src/event.go), parameterized by the behaviour of
`json.Marshal`: the error message is recorded into `ErrorMessage`, the full
Event is serialized and published to the error channel; a serialization
failure is `log.Panic`, modelled as `none` (nothing published).  The `some`
result is (event after the call, publications in order). -/
def errorEvWith (m : Event → Except String String) (ev : Event) (msg : String) :
    Option (Event × List Pub) :=
  match m { ev with ErrorMessage := msg } with
  | .error _ => none
  | .ok data => some ({ ev with ErrorMessage := msg }, [(errorSubject, data)])

/-- Embedding of `Complete` (src/event.go), parameterized by the behaviour of
`json.Marshal`: on success the serialization is published to the done
channel.  On failure `Error` is invoked with the marshal error, and — the
source has no return after that call — the done-channel publish still runs,
with the nil payload (empty bytes).  `none` models the panic inside the
`Error` fallback. -/
def completeEvWith (m : Event → Except String String) (ev : Event) :
    Option (Event × List Pub) :=
  match m ev with
  | .ok data => some (ev, [(doneSubject, data)])
  | .error e =>
    match errorEvWith m ev e with
    | none => none
    | some (ev₁, pubs) => some (ev₁, pubs ++ [(doneSubject, "")])

/-- `json.Marshal` specialised to the actual Event struct: a flat value of
strings and string lists, on which marshalling always succeeds. -/
def goMarshal (ev : Event) : Except String String := .ok (marshalEvent ev)

/-- `Error` with the program's marshaller. -/
def errorEv (ev : Event) (msg : String) : Option (Event × List Pub) :=
  errorEvWith goMarshal ev msg

/-- `Complete` with the program's marshaller. -/
def completeEv (ev : Event) : Option (Event × List Pub) :=
  completeEvWith goMarshal ev

/-- An Event with every field zero-valued, as `var n Event` yields. -/
def baseEvent : Event :=
  ⟨"", "", "", "", "", "", "", "", "", [], [], "", "", "", "", ""⟩

/-- The valid fixture of src/event_test.go (fields the test leaves unset are
zero-valued). -/
def testEvent : Event :=
  { baseEvent with
    UUID := "test", BatchID := "test", ProviderType := "aws",
    VPCID := "vpc-0000000", DatacenterRegion := "eu-west-1",
    DatacenterAccessKey := "key", DatacenterAccessToken := "token",
    PublicNetworkAWSID := "subnet-00000000",
    RoutedNetworkAWSIDs := ["subnet-00000001"] }

/-- A valid Event used to exercise the reconciler. -/
def reconEvent : Event :=
  { testEvent with NatGatewayAWSID := "nat-00000001" }

/-- A reconciler fixture with two routed subnets. -/
def reconEvent2 : Event :=
  { reconEvent with RoutedNetworkAWSIDs := ["subnet-00000001", "subnet-00000002"] }

/-- The empty provider state. -/
def emptyState : AWSState := ⟨[], 0⟩

/-- A provider table associated with subnet-00000001 whose default route to
an absent NAT gateway id (an internet-gateway default route, say) precedes
the exact NAT default route. -/
def igwFirstTable : ProvTable :=
  ⟨"rtb-a", ["subnet-00000001"], [⟨some "0.0.0.0/0", none⟩, defRoute "nat-00000001"]⟩

/-- Provider state holding only `igwFirstTable`. -/
def igwFirstState : AWSState := ⟨[igwFirstTable], 0⟩

/-- A route table whose matching default route precedes a route with an
absent destination CIDR. -/
def matchFirstTable : RouteTable :=
  ⟨some "rtb-b", [defRoute "nat-00000001", ⟨none, none⟩]⟩

/-- A route table with a non-matching well-formed route followed by a route
with an absent destination CIDR. -/
def nilDestTable : RouteTable :=
  ⟨some "rtb-c", [⟨some "10.0.0.0/16", some "nat-x"⟩, ⟨none, none⟩]⟩

/-- An adapter whose every operation fails with the same provider error. -/
def failAdapter : Adapter Unit String where
  describeRouteTables _ s := (.error "provider down", s)
  createRouteTable _ s := (.error "provider down", s)
  associateRouteTable _ _ s := (.error "provider down", s)
  createRoute _ _ _ s := (.error "provider down", s)

/-- An adapter whose lookup always returns one table already configured for
nat-00000001, so every subnet is skipped. -/
def skipAdapter : Adapter Unit String where
  describeRouteTables _ s := (.ok [⟨some "rtb-w", [defRoute "nat-00000001"]⟩], s)
  createRouteTable _ s := (.ok ⟨some "rtb-w", []⟩, s)
  associateRouteTable _ _ s := (.ok (), s)
  createRoute _ _ _ s := (.ok (), s)

/-- A marshaller that fails exactly on events with no error message yet, to
drive `Complete` into its serialization-failure branch while its `Error`
fallback still serializes. -/
def mBadMarshal (ev : Event) : Except String String :=
  if ev.ErrorMessage = "" then .error "marshal failed" else .ok (marshalEvent ev)

/-- A marshaller that always fails. -/
def mFailMarshal (_ : Event) : Except String String := .error "marshal failed"

/-- An unmarshaller that fails on one fixed payload and otherwise returns the
test fixture. -/
def uFixture (d : String) : Except String Event :=
  if d = "bad json" then .error "invalid character" else .ok testEvent

/-- The unmarshaller realizing `json.Unmarshal`'s round-trip on the canonical
serialization of the reconciler fixture. -/
def uRoundtrip (d : String) : Except String Event :=
  if d = marshalEvent reconEvent then .ok reconEvent else .error "invalid character"

/-- A route the scan of `routeTableIsConfigured` passes over without
panicking and without matching: its destination pointer is present, and it is
either not the default destination or a default route towards a present NAT
gateway id different from the target. -/
def routeScanOk (gw : String) (r : Route) : Prop :=
  ∃ d, r.destinationCidrBlock = some d ∧
    (d ≠ "0.0.0.0/0" ∨ ∃ g, r.natGatewayId = some g ∧ g ≠ gw)

/-- A route on which the scan of `routeTableIsConfigured` dereferences a nil
pointer: absent destination CIDR, or a default route with an absent NAT
gateway id. -/
def routePanics (r : Route) : Prop :=
  r.destinationCidrBlock = none ∨
  (r.destinationCidrBlock = some "0.0.0.0/0" ∧ r.natGatewayId = none)

theorem list_map_id {α : Type} (l : List α) (f : α → α) (h : ∀ t ∈ l, f t = t) :
    l.map f = l := by
  induction l with
  | nil => rfl
  | cons x xs ih =>
    simp only [List.map_cons, h x (List.mem_cons_self x xs)]
    exact congrArg _ (ih fun t ht => h t (List.mem_cons_of_mem x ht))

theorem filter_map_comm {α : Type} (l : List α) (g : α → α) (p : α → Bool)
    (h : ∀ t, p (g t) = p t) : (l.map g).filter p = (l.filter p).map g := by
  induction l with
  | nil => rfl
  | cons x xs ih =>
    simp only [List.map_cons, List.filter_cons, h x]
    cases hp : p x <;> simp [hp, ih]

theorem genId_inj {a b : Nat} (h : genId a = genId b) : a = b := by
  have hl := congrArg String.length h
  simpa [genId, String.length_append, String.length] using hl

theorem updateNatGo_nil {S E : Type} (svc : Adapter S E) (vpc gw : String)
    (s : S) : updateNatGo svc vpc gw [] s = ([], .ok, s) := rfl

theorem updateNatGo_cons_of_ok {S E : Type} (svc : Adapter S E) (vpc gw n : String)
    (ns : List String) (s s₁ s₂ : S) (t t₂ : List Call) (r : StepRes E)
    (hstep : natStep svc vpc gw n s = (t, .ok, s₁))
    (hrest : updateNatGo svc vpc gw ns s₁ = (t₂, r, s₂)) :
    updateNatGo svc vpc gw (n :: ns) s = (t ++ t₂, r, s₂) := by
  simp [updateNatGo, hstep, hrest]

theorem updateNatGo_cons_of_err {S E : Type} (svc : Adapter S E) (vpc gw n : String)
    (ns : List String) (s s₁ : S) (t : List Call) (e : E)
    (hstep : natStep svc vpc gw n s = (t, .err e, s₁)) :
    updateNatGo svc vpc gw (n :: ns) s = (t, .err e, s₁) := by
  simp [updateNatGo, hstep]

theorem updateNatGo_cons_of_panic {S E : Type} (svc : Adapter S E) (vpc gw n : String)
    (ns : List String) (s s₁ : S) (t : List Call)
    (hstep : natStep svc vpc gw n s = (t, .panicked, s₁)) :
    updateNatGo svc vpc gw (n :: ns) s = (t, .panicked, s₁) := by
  simp [updateNatGo, hstep]

theorem updateNatGo_append_ok {S E : Type} (svc : Adapter S E) (vpc gw : String)
    (xs : List String) : ∀ (ys : List String) (s s₁ s₂ : S) (t₁ t₂ : List Call)
    (r : StepRes E),
    updateNatGo svc vpc gw xs s = (t₁, .ok, s₁) →
    updateNatGo svc vpc gw ys s₁ = (t₂, r, s₂) →
    updateNatGo svc vpc gw (xs ++ ys) s = (t₁ ++ t₂, r, s₂) := by
  induction xs with
  | nil =>
    intro ys s s₁ s₂ t₁ t₂ r h1 h2
    rw [updateNatGo_nil] at h1
    injection h1 with ha hb
    injection hb with _ hc
    subst ha; subst hc
    simpa using h2
  | cons x xs ih =>
    intro ys s s₁ s₂ t₁ t₂ r h1 h2
    rcases hstep : natStep svc vpc gw x s with ⟨tx, rx, sx⟩
    cases rx with
    | ok =>
      rcases hrec : updateNatGo svc vpc gw xs sx with ⟨tr₁, rr, sr⟩
      rw [updateNatGo_cons_of_ok svc vpc gw x xs s sx sr tx tr₁ rr hstep hrec] at h1
      cases h1
      have := ih ys sx s₁ s₂ tr₁ t₂ r hrec h2
      rw [List.cons_append,
        updateNatGo_cons_of_ok svc vpc gw x (xs ++ ys) s sx s₂ tx (tr₁ ++ t₂) r hstep this,
        List.append_assoc]
    | err e =>
      rw [updateNatGo_cons_of_err svc vpc gw x xs s sx tx e hstep] at h1
      cases h1
    | panicked =>
      rw [updateNatGo_cons_of_panic svc vpc gw x xs s sx tx hstep] at h1
      cases h1


theorem updateNatGo_cons_ok_inv {S E : Type} (svc : Adapter S E) (vpc gw n : String)
    (ns : List String) (s s₂ : S) (t : List Call)
    (h : updateNatGo svc vpc gw (n :: ns) s = (t, .ok, s₂)) :
    ∃ tn s₁ t₂, natStep svc vpc gw n s = (tn, .ok, s₁) ∧
      updateNatGo svc vpc gw ns s₁ = (t₂, .ok, s₂) ∧ t = tn ++ t₂ := by
  rcases hstep : natStep svc vpc gw n s with ⟨tx, rx, sx⟩
  cases rx with
  | ok =>
    rcases hrec : updateNatGo svc vpc gw ns sx with ⟨t₂, r₂, sr⟩
    rw [updateNatGo_cons_of_ok svc vpc gw n ns s sx sr tx t₂ r₂ hstep hrec] at h
    injection h with ha hb
    injection hb with hb1 hb2
    subst hb1; subst hb2; subst ha
    exact ⟨tx, sx, t₂, rfl, hrec, rfl⟩
  | err e =>
    rw [updateNatGo_cons_of_err svc vpc gw n ns s sx tx e hstep] at h
    injection h with _ hb
    injection hb with hb1 _
    exact absurd hb1 (by simp)
  | panicked =>
    rw [updateNatGo_cons_of_panic svc vpc gw n ns s sx tx hstep] at h
    injection h with _ hb
    injection hb with hb1 _
    exact absurd hb1 (by simp)

theorem updateNatGo_prefix_ok {S E : Type} (svc : Adapter S E) (vpc gw : String)
    (xs : List String) : ∀ (ys : List String) (s s₂ : S) (t : List Call),
    updateNatGo svc vpc gw (xs ++ ys) s = (t, .ok, s₂) →
    ∃ t₁ s₁ t₂, updateNatGo svc vpc gw xs s = (t₁, .ok, s₁) ∧
      updateNatGo svc vpc gw ys s₁ = (t₂, .ok, s₂) ∧ t = t₁ ++ t₂ := by
  induction xs with
  | nil =>
    intro ys s s₂ t h
    exact ⟨[], s, t, updateNatGo_nil svc vpc gw s, by simpa using h, rfl⟩
  | cons x xs ih =>
    intro ys s s₂ t h
    rw [List.cons_append] at h
    obtain ⟨tn, s₁, t₂, hstep, hrest, rfl⟩ :=
      updateNatGo_cons_ok_inv svc vpc gw x (xs ++ ys) s s₂ t h
    obtain ⟨ta, sa, tb, hxs, hys, rfl⟩ := ih ys s₁ s₂ t₂ hrest
    exact ⟨tn ++ ta, sa, tb,
      updateNatGo_cons_of_ok svc vpc gw x xs s s₁ sa tn ta .ok hstep hxs, hys,
      (List.append_assoc tn ta tb).symm⟩

theorem createRouteTable_trace_shape {S E : Type} (svc : Adapter S E)
    (vpc n : String) (s : S) :
    (createRouteTable svc vpc n s).1 = [.describeRouteTables n] ∨
    (createRouteTable svc vpc n s).1 = [.describeRouteTables n, .createRouteTable vpc] ∨
    ∃ rid, (createRouteTable svc vpc n s).1 =
      [.describeRouteTables n, .createRouteTable vpc, .associateRouteTable rid n] := by
  rcases hdesc : svc.describeRouteTables n s with ⟨resp, s₁⟩
  cases resp with
  | error e => left; simp [createRouteTable, routingTableBySubnetID, hdesc]
  | ok tables =>
    cases tables with
    | cons rt rest =>
      left; simp [createRouteTable, routingTableBySubnetID, hdesc]
    | nil =>
      rcases hcr : svc.createRouteTable vpc s₁ with ⟨cres, s₂⟩
      cases cres with
      | error e =>
        right; left; simp [createRouteTable, routingTableBySubnetID, hdesc, hcr]
      | ok rt =>
        rcases has : svc.associateRouteTable rt.routeTableId n s₂ with ⟨ares, s₃⟩
        cases ares with
        | error e =>
          refine Or.inr (Or.inr ⟨rt.routeTableId, ?_⟩)
          simp [createRouteTable, routingTableBySubnetID, hdesc, hcr, has]
        | ok u =>
          refine Or.inr (Or.inr ⟨rt.routeTableId, ?_⟩)
          simp [createRouteTable, routingTableBySubnetID, hdesc, hcr, has]

theorem mentions_of_mem_block {n vpc : String} {rid : Option String} {c : Call}
    (h : c = Call.describeRouteTables n ∨ c = Call.createRouteTable vpc ∨
         c = Call.associateRouteTable rid n) :
    ∀ m, c.mentionsSubnet m = true → m = n := by
  intro m hm
  rcases h with rfl | rfl | rfl <;> simp [Call.mentionsSubnet] at hm <;>
    exact hm.symm

theorem createRouteTable_mentions {S E : Type} (svc : Adapter S E)
    (vpc n : String) (s : S) :
    ∀ c ∈ (createRouteTable svc vpc n s).1, ∀ m, c.mentionsSubnet m = true → m = n := by
  intro c hc
  rcases createRouteTable_trace_shape svc vpc n s with h | h | ⟨rid, h⟩ <;>
    rw [h] at hc <;> simp only [List.mem_cons, List.not_mem_nil, or_false] at hc
  · exact @mentions_of_mem_block n vpc none c (Or.inl hc)
  · exact @mentions_of_mem_block n vpc none c
      (hc.elim Or.inl (fun h₂ => Or.inr (Or.inl h₂)))
  · exact @mentions_of_mem_block n vpc rid c
      (hc.elim Or.inl (fun h₂ => h₂.elim (Or.inr ∘ Or.inl) (Or.inr ∘ Or.inr)))

theorem natStep_mentions {S E : Type} (svc : Adapter S E)
    (vpc gw n : String) (s : S) :
    ∀ c ∈ (natStep svc vpc gw n s).1, ∀ m, c.mentionsSubnet m = true → m = n := by
  have hmem := createRouteTable_mentions svc vpc n s
  rcases hct : createRouteTable svc vpc n s with ⟨t, cres, s₁⟩
  rw [hct] at hmem
  simp only at hmem
  cases cres with
  | error e =>
    intro c hc
    rw [show (natStep svc vpc gw n s).1 = t by rw [natStep, hct]] at hc
    exact hmem c hc
  | ok rt =>
    intro c hc
    rcases hconf : routeTableIsConfigured rt gw with _ | b
    · rw [show (natStep svc vpc gw n s).1 = t by rw [natStep, hct]; simp [hconf]] at hc
      exact hmem c hc
    · cases b with
      | true =>
        rw [show (natStep svc vpc gw n s).1 = t by rw [natStep, hct]; simp [hconf]] at hc
        exact hmem c hc
      | false =>
        rcases hcr : svc.createRoute rt.routeTableId "0.0.0.0/0" gw s₁ with ⟨cres₂, s₂⟩
        have hshape : (natStep svc vpc gw n s).1 =
            t ++ [.createRoute rt.routeTableId "0.0.0.0/0" gw] := by
          rw [natStep, hct]
          cases cres₂ <;> simp [hconf, createNatGatewayRoutes, hcr]
        rw [hshape, List.mem_append] at hc
        rcases hc with hc | hc
        · exact hmem c hc
        · simp only [List.mem_singleton] at hc
          subst hc
          intro m hm
          simp [Call.mentionsSubnet] at hm

theorem updateNatGo_mentions {S E : Type} (svc : Adapter S E) (vpc gw : String)
    (ns : List String) : ∀ (s : S) (c : Call), c ∈ (updateNatGo svc vpc gw ns s).1 →
    ∀ m, c.mentionsSubnet m = true → m ∈ ns := by
  induction ns with
  | nil => intro s c hc; rw [updateNatGo_nil] at hc; exact absurd hc (List.not_mem_nil c)
  | cons x xs ih =>
    intro s c hc m hm
    have hx := natStep_mentions svc vpc gw x s
    rcases hstep : natStep svc vpc gw x s with ⟨tx, rx, sx⟩
    rw [hstep] at hx
    simp only at hx
    cases rx with
    | ok =>
      rcases hrec : updateNatGo svc vpc gw xs sx with ⟨t₂, r₂, s₂⟩
      rw [updateNatGo_cons_of_ok svc vpc gw x xs s sx s₂ tx t₂ r₂ hstep hrec] at hc
      simp only [List.mem_append] at hc
      rcases hc with hc | hc
      · exact (hx c hc m hm) ▸ List.mem_cons_self x xs
      · have := ih sx c (by rw [hrec]; exact hc) m hm
        exact List.mem_cons_of_mem x this
    | err e =>
      rw [updateNatGo_cons_of_err svc vpc gw x xs s sx tx e hstep] at hc
      exact (hx c hc m hm) ▸ List.mem_cons_self x xs
    | panicked =>
      rw [updateNatGo_cons_of_panic svc vpc gw x xs s sx tx hstep] at hc
      exact (hx c hc m hm) ▸ List.mem_cons_self x xs

theorem map_update_append (l : List ProvTable) (newT : ProvTable)
    (f : ProvTable → ProvTable) (hl : ∀ t ∈ l, f t = t) :
    (l ++ [newT]).map f = l ++ [f newT] := by
  rw [List.map_append, list_map_id l f hl]
  simp

theorem configuredScan_defRoute (gw : String) (rs : List Route) :
    configuredScan gw (defRoute gw :: rs) = some true := by
  simp [configuredScan, defRoute]

theorem natStep_skip {S E : Type} (svc : Adapter S E) (vpc gw n : String)
    (s s₁ : S) (rt : RouteTable) (rest : List RouteTable)
    (hdesc : svc.describeRouteTables n s = (.ok (rt :: rest), s₁))
    (hconf : routeTableIsConfigured rt gw = some true) :
    natStep svc vpc gw n s = ([.describeRouteTables n], .ok, s₁) := by
  simp [natStep, createRouteTable, routingTableBySubnetID, hdesc, hconf]


theorem assocUpdate_miss {t : ProvTable} {i : String} (n : String)
    (h : t.ptId ≠ i) : assocUpdate (some i) n t = t := by
  unfold assocUpdate
  rw [if_neg]
  intro hc
  exact h (Option.some.inj hc)

theorem routeUpdate_miss {t : ProvTable} {i : String} (d g : String)
    (h : t.ptId ≠ i) : routeUpdate (some i) d g t = t := by
  unfold routeUpdate
  rw [if_neg]
  intro hc
  exact h (Option.some.inj hc)

theorem assocUpdate_ptId (rid : Option String) (n : String) (t : ProvTable) :
    (assocUpdate rid n t).ptId = t.ptId := by
  unfold assocUpdate
  split <;> rfl

theorem routeUpdate_ptId (rid : Option String) (d g : String) (t : ProvTable) :
    (routeUpdate rid d g t).ptId = t.ptId := by
  unfold routeUpdate
  split <;> rfl

theorem routeUpdate_ptSubnets (rid : Option String) (d g : String) (t : ProvTable) :
    (routeUpdate rid d g t).ptSubnets = t.ptSubnets := by
  unfold routeUpdate
  split <;> rfl

theorem aws_describe (n : String) (s : AWSState) :
    awsAdapter.describeRouteTables n s =
      (.ok ((tablesFor n s).map ProvTable.toRouteTable), s) := rfl

theorem aws_create (vpc : String) (s : AWSState) :
    awsAdapter.createRouteTable vpc s =
      (.ok ⟨some (genId s.counter), []⟩,
       ⟨s.tables ++ [⟨genId s.counter, [], []⟩], s.counter + 1⟩) := rfl

theorem aws_assoc (rid : Option String) (n : String) (s : AWSState) :
    awsAdapter.associateRouteTable rid n s =
      (.ok (), ⟨s.tables.map (assocUpdate rid n), s.counter⟩) := rfl

theorem aws_route (rid : Option String) (d g : String) (s : AWSState) :
    awsAdapter.createRoute rid d g s =
      (.ok (), ⟨s.tables.map (routeUpdate rid d g), s.counter⟩) := rfl

theorem natStep_unassoc (vpc gw n : String) (s : AWSState)
    (h1 : unassociated n s) (h2 : FreshIds s) :
    natStep awsAdapter vpc gw n s = (natBlock vpc gw n s.counter, .ok, stepState n gw s) := by
  have h1' : tablesFor n s = [] := h1
  have hrtbs : routingTableBySubnetID awsAdapter n s =
      ([.describeRouteTables n], .ok none, s) := by
    simp [routingTableBySubnetID, aws_describe, h1']
  have hamap : ((s.tables ++ [(⟨genId s.counter, [], []⟩ : ProvTable)]).map
      (assocUpdate (some (genId s.counter)) n)) =
      s.tables ++ [(⟨genId s.counter, [n], []⟩ : ProvTable)] := by
    rw [map_update_append _ _ _
      (fun t ht => assocUpdate_miss n (h2 t ht s.counter le_rfl))]
    simp [assocUpdate]
  have hrmap : ((s.tables ++ [(⟨genId s.counter, [n], []⟩ : ProvTable)]).map
      (routeUpdate (some (genId s.counter)) "0.0.0.0/0" gw)) =
      s.tables ++ [(⟨genId s.counter, [n], [defRoute gw]⟩ : ProvTable)] := by
    rw [map_update_append _ _ _
      (fun t ht => routeUpdate_miss "0.0.0.0/0" gw (h2 t ht s.counter le_rfl))]
    simp [routeUpdate, defRoute]
  have hcrt : createRouteTable awsAdapter vpc n s =
      ([.describeRouteTables n, .createRouteTable vpc,
        .associateRouteTable (some (genId s.counter)) n],
       .ok ⟨some (genId s.counter), []⟩,
       ⟨s.tables ++ [⟨genId s.counter, [n], []⟩], s.counter + 1⟩) := by
    simp only [createRouteTable, hrtbs, aws_create, aws_assoc]
    simp [hamap]
  have hroute : createNatGatewayRoutes awsAdapter ⟨some (genId s.counter), []⟩ gw
      ⟨s.tables ++ [⟨genId s.counter, [n], []⟩], s.counter + 1⟩ =
      ([.createRoute (some (genId s.counter)) "0.0.0.0/0" gw], .ok (),
       stepState n gw s) := by
    simp only [createNatGatewayRoutes, aws_route]
    simp [hrmap, stepState]
  have hconf : routeTableIsConfigured ⟨some (genId s.counter), []⟩ gw = some false := rfl
  simp only [natStep, hcrt, hconf, hroute, natBlock]
  simp

theorem createRouteTable_found (vpc n : String) (s : AWSState) (T : ProvTable)
    (rest : List ProvTable) (h : tablesFor n s = T :: rest) :
    createRouteTable awsAdapter vpc n s =
      ([.describeRouteTables n], .ok T.toRouteTable, s) := by
  have hrtbs : routingTableBySubnetID awsAdapter n s =
      ([.describeRouteTables n], .ok (some T.toRouteTable), s) := by
    simp [routingTableBySubnetID, aws_describe, h]
  simp [createRouteTable, hrtbs]

theorem mem_of_tablesFor {n : String} {s : AWSState} {T : ProvTable}
    (h : T ∈ tablesFor n s) : T ∈ s.tables :=
  List.mem_of_mem_filter h

theorem natStep_inv_skip (vpc gw n : String) (s : AWSState) (h : SubnetInv n gw s) :
    natStep awsAdapter vpc gw n s = ([.describeRouteTables n], .ok, s) := by
  obtain ⟨hf, i, heq, huniq⟩ := h
  have hdesc : awsAdapter.describeRouteTables n s =
      (.ok [ProvTable.toRouteTable ⟨i, [n], [defRoute gw]⟩], s) := by
    rw [aws_describe, heq]
    rfl
  exact natStep_skip awsAdapter vpc gw n s s _ [] hdesc (configuredScan_defRoute gw [])

theorem inv_stepState (n gw : String) (s : AWSState)
    (h1 : unassociated n s) (h2 : FreshIds s) : SubnetInv n gw (stepState n gw s) := by
  have h1' : tablesFor n s = [] := h1
  refine ⟨?_, genId s.counter, ?_, ?_⟩
  · intro t ht k hk
    rcases List.mem_append.mp ht with ht | ht
    · exact h2 t ht k (Nat.le_of_succ_le hk)
    · simp only [List.mem_singleton] at ht
      subst ht
      intro hgen
      have h5 := genId_inj hgen
      have hk1 : s.counter + 1 ≤ k := hk
      omega
  · show (s.tables ++ [(⟨genId s.counter, [n], [defRoute gw]⟩ : ProvTable)]).filter _ = _
    rw [List.filter_append]
    have h1f : s.tables.filter (fun t => decide (n ∈ t.ptSubnets)) = [] := h1'
    rw [h1f]
    simp
  · intro t ht hti
    rcases List.mem_append.mp ht with ht | ht
    · exact absurd hti (h2 t ht s.counter le_rfl)
    · simp only [List.mem_singleton] at ht
      subst ht
      rfl

theorem natStep_inv_pres (vpc gw n m : String) (s : AWSState) (tr : List Call)
    (r : StepRes String) (s' : AWSState)
    (hstep : natStep awsAdapter vpc gw m s = (tr, r, s'))
    (hinv : SubnetInv n gw s) : SubnetInv n gw s' := by
  obtain ⟨hf, i, heq, huniq⟩ := hinv
  have hTmem : (⟨i, [n], [defRoute gw]⟩ : ProvTable) ∈ s.tables :=
    mem_of_tablesFor (heq ▸ List.mem_cons_self _ _)
  rcases htm : tablesFor m s with _ | ⟨T, rest⟩
  · -- subnet m unassociated: the step creates a fresh table for m
    have hm := natStep_unassoc vpc gw m s htm hf
    have hcomb := hm.symm.trans hstep
    injection hcomb with _ h2
    injection h2 with _ h4
    subst h4
    have hmn : m ≠ n := by
      intro hEq
      subst hEq
      rw [htm] at heq
      exact List.cons_ne_nil _ _ heq.symm
    refine ⟨?_, i, ?_, ?_⟩
    · intro t ht k hk
      rcases List.mem_append.mp ht with ht | ht
      · exact hf t ht k (Nat.le_of_succ_le hk)
      · simp only [List.mem_singleton] at ht
        subst ht
        intro hgen
        have h5 := genId_inj hgen
        have hk1 : s.counter + 1 ≤ k := hk
        omega
    · show (s.tables ++ [(⟨genId s.counter, [m], [defRoute gw]⟩ : ProvTable)]).filter _ = _
      rw [List.filter_append]
      have h1f : s.tables.filter (fun t => decide (n ∈ t.ptSubnets)) =
          [⟨i, [n], [defRoute gw]⟩] := heq
      rw [h1f]
      simp [Ne.symm hmn]
    · intro t ht hti
      rcases List.mem_append.mp ht with ht | ht
      · exact huniq t ht hti
      · simp only [List.mem_singleton] at ht
        subst ht
        exact absurd hti.symm (hf _ hTmem s.counter le_rfl)
  · -- subnet m already associated with table T
    have hcrt := createRouteTable_found vpc m s T rest htm
    have hTs : T ∈ s.tables := mem_of_tablesFor (htm ▸ List.mem_cons_self _ _)
    rcases hconf : routeTableIsConfigured T.toRouteTable gw with _ | b
    · have : natStep awsAdapter vpc gw m s = ([.describeRouteTables m], .panicked, s) := by
        simp [natStep, hcrt, hconf]
      have hcomb := this.symm.trans hstep
      injection hcomb with _ h2
      injection h2 with _ h4
      subst h4
      exact ⟨hf, i, heq, huniq⟩
    · cases b with
      | true =>
        have : natStep awsAdapter vpc gw m s = ([.describeRouteTables m], .ok, s) := by
          simp [natStep, hcrt, hconf]
        have hcomb := this.symm.trans hstep
        injection hcomb with _ h2
        injection h2 with _ h4
        subst h4
        exact ⟨hf, i, heq, huniq⟩
      | false =>
        have hTi : T.ptId ≠ i := by
          intro hEq
          have hT := huniq T hTs hEq
          rw [hT] at hconf
          have : routeTableIsConfigured
              (ProvTable.toRouteTable ⟨i, [n], [defRoute gw]⟩) gw = some true :=
            configuredScan_defRoute gw []
          rw [this] at hconf
          exact absurd hconf (by simp)
        have hroute : createNatGatewayRoutes awsAdapter T.toRouteTable gw s =
            ([.createRoute (some T.ptId) "0.0.0.0/0" gw], .ok (),
             ⟨s.tables.map (routeUpdate (some T.ptId) "0.0.0.0/0" gw), s.counter⟩) := by
          simp [createNatGatewayRoutes, ProvTable.toRouteTable, aws_route]
        have : natStep awsAdapter vpc gw m s =
            ([.describeRouteTables m, .createRoute (some T.ptId) "0.0.0.0/0" gw], .ok,
             ⟨s.tables.map (routeUpdate (some T.ptId) "0.0.0.0/0" gw), s.counter⟩) := by
          simp [natStep, hcrt, hconf, hroute]
        have hcomb := this.symm.trans hstep
        injection hcomb with _ h2
        injection h2 with _ h4
        subst h4
        refine ⟨?_, i, ?_, ?_⟩
        · intro t ht k hk
          rcases List.mem_map.mp ht with ⟨t₀, ht₀, rfl⟩
          rw [routeUpdate_ptId]
          exact hf t₀ ht₀ k hk
        · show (s.tables.map (routeUpdate (some T.ptId) "0.0.0.0/0" gw)).filter _ = _
          rw [filter_map_comm _ _ _
            (fun t => by rw [routeUpdate_ptSubnets])]
          have h1f : s.tables.filter (fun t => decide (n ∈ t.ptSubnets)) =
              [⟨i, [n], [defRoute gw]⟩] := heq
          rw [h1f, List.map_singleton,
            routeUpdate_miss _ _ (show ProvTable.ptId ⟨i, [n], [defRoute gw]⟩ ≠ T.ptId
              from Ne.symm hTi)]
        · intro t ht hti
          rcases List.mem_map.mp ht with ⟨t₀, ht₀, rfl⟩
          rw [routeUpdate_ptId] at hti
          rw [huniq t₀ ht₀ hti,
            routeUpdate_miss _ _ (show ProvTable.ptId ⟨i, [n], [defRoute gw]⟩ ≠ T.ptId
              from Ne.symm hTi)]

theorem updateNatGo_inv_pres (vpc gw n : String) (ms : List String) :
    ∀ (s : AWSState) (tr : List Call) (r : StepRes String) (s' : AWSState),
    updateNatGo awsAdapter vpc gw ms s = (tr, r, s') →
    SubnetInv n gw s → SubnetInv n gw s' := by
  induction ms with
  | nil =>
    intro s tr r s' h hinv
    rw [updateNatGo_nil] at h
    injection h with _ h2
    injection h2 with _ h4
    subst h4
    exact hinv
  | cons x xs ih =>
    intro s tr r s' h hinv
    rcases hstep : natStep awsAdapter vpc gw x s with ⟨tx, rx, sx⟩
    have hinv1 := natStep_inv_pres vpc gw n x s tx rx sx hstep hinv
    cases rx with
    | ok =>
      rcases hrec : updateNatGo awsAdapter vpc gw xs sx with ⟨t₂, r₂, s₂⟩
      rw [updateNatGo_cons_of_ok awsAdapter vpc gw x xs s sx s₂ tx t₂ r₂ hstep hrec] at h
      injection h with _ h2
      injection h2 with _ h4
      subst h4
      exact ih sx t₂ r₂ s₂ hrec hinv1
    | err e =>
      rw [updateNatGo_cons_of_err awsAdapter vpc gw x xs s sx tx e hstep] at h
      injection h with _ h2
      injection h2 with _ h4
      subst h4
      exact hinv1
    | panicked =>
      rw [updateNatGo_cons_of_panic awsAdapter vpc gw x xs s sx tx hstep] at h
      injection h with _ h2
      injection h2 with _ h4
      subst h4
      exact hinv1

/-- C10: for every subnet lookup, a provider response listing one or more
route tables makes `routingTableBySubnetID` return exactly the first table of
the response with no error (multiplicity is never an error), a response
listing zero tables makes it return an absent table together with a nil
error, and a provider error is returned as a non-nil error — so absence is
distinguishable from the provider-error case. -/
theorem c10_lookup {S E : Type} (svc : Adapter S E) (n : String) (s : S) :
    (∀ (ts : List RouteTable) (s₁ : S), svc.describeRouteTables n s = (.ok ts, s₁) →
      routingTableBySubnetID svc n s = ([.describeRouteTables n], .ok ts.head?, s₁)) ∧
    (∀ (e : E) (s₁ : S), svc.describeRouteTables n s = (.error e, s₁) →
      routingTableBySubnetID svc n s = ([.describeRouteTables n], .error e, s₁)) := by
  constructor
  · intro ts s₁ h
    cases ts <;> simp [routingTableBySubnetID, h]
  · intro e s₁ h
    simp [routingTableBySubnetID, h]

/-- Witness for C10 at a one-table response and at a provider error. -/
theorem c10_lookup_witness :
    routingTableBySubnetID skipAdapter "subnet-00000001" () =
      ([.describeRouteTables "subnet-00000001"],
       .ok (some ⟨some "rtb-w", [defRoute "nat-00000001"]⟩), ()) ∧
    routingTableBySubnetID failAdapter "subnet-00000001" () =
      ([.describeRouteTables "subnet-00000001"], .error "provider down", ()) := by
  constructor
  · have h := (c10_lookup skipAdapter "subnet-00000001" ()).1
      [⟨some "rtb-w", [defRoute "nat-00000001"]⟩] () rfl
    simpa using h
  · exact (c10_lookup failAdapter "subnet-00000001" ()).2 "provider down" () rfl

/-- C4: `Validate` returns nil exactly when the VPC id, region, both
credentials and the public network id are non-empty and the routed list is
non-empty; otherwise it returns the first violated invariant in the fixed
order vpc id, region, credentials (either empty credential gives the same
unified message), public network id, routed list, with the fixed messages,
independently of the remaining fields. -/
theorem c4_validate (ev : Event) :
    (ev.Validate = none ↔ ev.VPCID ≠ "" ∧ ev.DatacenterRegion ≠ "" ∧
      ev.DatacenterAccessKey ≠ "" ∧ ev.DatacenterAccessToken ≠ "" ∧
      ev.PublicNetworkAWSID ≠ "" ∧ ev.RoutedNetworkAWSIDs ≠ []) ∧
    (ev.VPCID = "" → ev.Validate = some "Datacenter VPC ID invalid") ∧
    (ev.VPCID ≠ "" → ev.DatacenterRegion = "" →
      ev.Validate = some "Datacenter Region invalid") ∧
    (ev.VPCID ≠ "" → ev.DatacenterRegion ≠ "" →
      (ev.DatacenterAccessKey = "" ∨ ev.DatacenterAccessToken = "") →
      ev.Validate = some "Datacenter credentials invalid") ∧
    (ev.VPCID ≠ "" → ev.DatacenterRegion ≠ "" → ev.DatacenterAccessKey ≠ "" →
      ev.DatacenterAccessToken ≠ "" → ev.PublicNetworkAWSID = "" →
      ev.Validate = some "Network id invalid") ∧
    (ev.VPCID ≠ "" → ev.DatacenterRegion ≠ "" → ev.DatacenterAccessKey ≠ "" →
      ev.DatacenterAccessToken ≠ "" → ev.PublicNetworkAWSID ≠ "" →
      ev.RoutedNetworkAWSIDs = [] →
      ev.Validate = some "Routed networks are empty") := by
  refine ⟨?_, ?_, ?_, ?_, ?_, ?_⟩
  · constructor
    · intro hnone
      unfold Event.Validate at hnone
      split_ifs at hnone with h1 h2 h3 h4 h5 <;>
        try exact Option.noConfusion hnone
      rw [not_or] at h3
      refine ⟨h1, h2, h3.1, h3.2, h4, ?_⟩
      intro hnil
      exact h5 (by simp [hnil])
    · rintro ⟨a1, a2, a3, a4, a5, a6⟩
      simp [Event.Validate, a1, a2, a3, a4, a5, Nat.lt_one_iff,
        List.length_eq_zero, a6]
  · intro h1
    simp [Event.Validate, h1]
  · intro h1 h2
    simp [Event.Validate, h1, h2]
  · intro h1 h2 h3
    rcases h3 with h3 | h3 <;> simp [Event.Validate, h1, h2, h3]
  · intro h1 h2 h3 h4 h5
    simp [Event.Validate, h1, h2, h3, h4, h5]
  · intro h1 h2 h3 h4 h5 h6
    simp [Event.Validate, h1, h2, h3, h4, h5, h6]

/-- Witness for C4: the test fixture validates, and blanking each required
field yields the field's fixed message. -/
theorem c4_validate_witness :
    testEvent.Validate = none ∧
    ({ testEvent with VPCID := "" }).Validate = some "Datacenter VPC ID invalid" ∧
    ({ testEvent with DatacenterRegion := "" }).Validate =
      some "Datacenter Region invalid" ∧
    ({ testEvent with DatacenterAccessKey := "" }).Validate =
      some "Datacenter credentials invalid" ∧
    ({ testEvent with DatacenterAccessToken := "" }).Validate =
      some "Datacenter credentials invalid" ∧
    ({ testEvent with PublicNetworkAWSID := "" }).Validate =
      some "Network id invalid" ∧
    ({ testEvent with RoutedNetworkAWSIDs := [] }).Validate =
      some "Routed networks are empty" := by
  refine ⟨?_, ?_, ?_, ?_, ?_, ?_, ?_⟩
  · exact (c4_validate testEvent).1.mpr (by decide)
  · exact (c4_validate _).2.1 rfl
  · exact (c4_validate _).2.2.1 (by decide) rfl
  · exact (c4_validate _).2.2.2.1 (by decide) (by decide) (Or.inl rfl)
  · exact (c4_validate _).2.2.2.1 (by decide) (by decide) (Or.inr rfl)
  · exact (c4_validate _).2.2.2.2.1 (by decide) (by decide) (by decide) (by decide) rfl
  · exact (c4_validate _).2.2.2.2.2 (by decide) (by decide) (by decide) (by decide)
      (by decide) rfl

/-- C6: when the raw payload fails to deserialize, `Process` publishes those
exact bytes unchanged to the error channel only, returns the deserialization
error, and leaves the ErrorMessage field as it was; when the payload
deserializes, `Process` publishes nothing and returns nil. -/
theorem c6_process (u : String → Except String Event) (ev : Event) (data : String) :
    (∀ e, u data = .error e →
      processEv u ev data = (ev, some e, [(errorSubject, data)]) ∧
      (processEv u ev data).1.ErrorMessage = ev.ErrorMessage) ∧
    (∀ ev₁, u data = .ok ev₁ → processEv u ev data = (ev₁, none, [])) := by
  constructor
  · intro e h
    constructor <;> simp [processEv, h]
  · intro ev₁ h
    simp [processEv, h]

/-- Witness for C6 at a malformed and at a well-formed payload. -/
theorem c6_process_witness :
    processEv uFixture baseEvent "bad json" =
      (baseEvent, some "invalid character", [(errorSubject, "bad json")]) ∧
    processEv uFixture baseEvent "x" = (testEvent, none, []) := by
  constructor
  · exact ((c6_process uFixture baseEvent "bad json").1 "invalid character"
      (by simp [uFixture])).1
  · exact (c6_process uFixture baseEvent "x").2 testEvent (by simp [uFixture])

/-- C7: on a valid Event (empty ErrorMessage), `Complete` publishes to the
done channel a payload byte-identical to the Event's JSON serialization and
nothing to the error channel; hence for an input payload that is the
canonical serialization of an Event, `Process` followed by `Complete`
republishes the identical bytes. -/
theorem c7_complete (ev : Event) (hval : ev.ErrorMessage = "") :
    completeEv ev = some (ev, [(doneSubject, marshalEvent ev)]) ∧
    ∀ (u : String → Except String Event) (ev₀ : Event),
      u (marshalEvent ev) = .ok ev →
      processEv u ev₀ (marshalEvent ev) = (ev, none, []) ∧
      completeEv ev = some (ev, [(doneSubject, marshalEvent ev)]) := by
  have h1 : completeEv ev = some (ev, [(doneSubject, marshalEvent ev)]) := by
    simp [completeEv, completeEvWith, goMarshal]
  exact ⟨h1, fun u ev₀ hu => ⟨by simp [processEv, hu], h1⟩⟩

/-- Witness for C7: the reconciler fixture round-trips through Process and
Complete with byte-identical payload on the done channel only. -/
theorem c7_complete_witness :
    completeEv reconEvent = some (reconEvent, [(doneSubject, marshalEvent reconEvent)]) ∧
    processEv uRoundtrip baseEvent (marshalEvent reconEvent) = (reconEvent, none, []) := by
  have h := c7_complete reconEvent rfl
  exact ⟨h.1, (h.2 uRoundtrip baseEvent (by simp [uRoundtrip])).1⟩

/-- C8: `Error` records the message into ErrorMessage and publishes the full
serialized Event — whose trailing wire-level error field carries exactly that
message — to the error channel and nothing to the done channel; a
serialization failure at this step panics and publishes nothing. -/
theorem c8_error (ev : Event) (msg : String) :
    errorEv ev msg = some ({ ev with ErrorMessage := msg },
      [(errorSubject, marshalEvent { ev with ErrorMessage := msg })]) ∧
    (msg ≠ "" → marshalEvent { ev with ErrorMessage := msg } =
      marshalEventMain { ev with ErrorMessage := msg } ++
        (",\"error\":" ++ jsonString msg) ++ "\x7d") ∧
    (∀ (m : Event → Except String String) (e : String),
      m { ev with ErrorMessage := msg } = .error e → errorEvWith m ev msg = none) := by
  refine ⟨?_, ?_, ?_⟩
  · simp [errorEv, errorEvWith, goMarshal]
  · intro hmsg
    simp [marshalEvent, hmsg, String.append_assoc]
  · intro m e h
    simp [errorEvWith, h]

/-- Witness for C8 at a concrete event and message, and at a failing
marshaller. -/
theorem c8_error_witness :
    errorEv testEvent "boom" = some ({ testEvent with ErrorMessage := "boom" },
      [(errorSubject, marshalEvent { testEvent with ErrorMessage := "boom" })]) ∧
    marshalEvent { testEvent with ErrorMessage := "boom" } =
      marshalEventMain { testEvent with ErrorMessage := "boom" } ++
        (",\"error\":" ++ jsonString "boom") ++ "\x7d" ∧
    errorEvWith mFailMarshal testEvent "boom" = none := by
  obtain ⟨h1, h2, h3⟩ := c8_error testEvent "boom"
  exact ⟨h1, h2 (by decide), h3 mFailMarshal "marshal failed" rfl⟩

/-- C5 counterexample: a single invocation of `Complete` whose serialization
fails publishes two messages — the `Error` fallback's message on the error
channel and then, because the source has no return after the fallback, an
empty payload on the done channel — and with a marshaller that always fails
the fallback panics and nothing at all is published; either way the claim's
"exactly one message per invocation" fails. -/
theorem c5_terminal_cex :
    (completeEvWith mBadMarshal testEvent).map (fun p => p.2.length) = some 2 ∧
    completeEvWith mFailMarshal testEvent = none := by
  constructor
  · rfl
  · rfl

/-- C5 (amended): `Process`'s deserialization-error path publishes exactly
one message, to the error channel, and its success path publishes nothing;
`Error`, when it returns rather than panicking, publishes exactly one
message, to the error channel; `Complete` publishes exactly one message, to
the done channel, when serialization succeeds, while on serialization
failure it either publishes two messages (the `Error` fallback's
error-channel message followed by an empty done-channel publish) or, when
the fallback itself panics, publishes nothing. -/
theorem c5_terminal (u : String → Except String Event)
    (m : Event → Except String String) (ev : Event) (data msg : String) :
    (∀ e, u data = .error e → (processEv u ev data).2.2 = [(errorSubject, data)]) ∧
    (∀ ev₁, u data = .ok ev₁ → (processEv u ev data).2.2 = []) ∧
    (∀ r, errorEvWith m ev msg = some r → ∃ d, r.2 = [(errorSubject, d)]) ∧
    (∀ d, m ev = .ok d → completeEvWith m ev = some (ev, [(doneSubject, d)])) ∧
    (∀ e, m ev = .error e →
      completeEvWith m ev = none ∨
      ∃ ev₁ d, completeEvWith m ev =
        some (ev₁, [(errorSubject, d), (doneSubject, "")])) := by
  refine ⟨?_, ?_, ?_, ?_, ?_⟩
  · intro e h
    simp [processEv, h]
  · intro ev₁ h
    simp [processEv, h]
  · intro r h
    unfold errorEvWith at h
    rcases hm : m { ev with ErrorMessage := msg } with e | d
    · rw [hm] at h
      exact absurd h (by simp)
    · rw [hm] at h
      simp only [Option.some.injEq] at h
      exact ⟨d, by rw [← h]⟩
  · intro d h
    simp [completeEvWith, h]
  · intro e h
    rcases hm : m { ev with ErrorMessage := e } with e₁ | d
    · left
      simp [completeEvWith, h, errorEvWith, hm]
    · right
      refine ⟨{ ev with ErrorMessage := e }, d, ?_⟩
      simp [completeEvWith, h, errorEvWith, hm]

/-- Witness for C5 (amended) across the five cases. -/
theorem c5_terminal_witness :
    (processEv uFixture baseEvent "bad json").2.2 = [(errorSubject, "bad json")] ∧
    (processEv uFixture baseEvent "x").2.2 = [] ∧
    (∃ d, ([(errorSubject, marshalEvent { testEvent with ErrorMessage := "b" })] :
      List Pub) = [(errorSubject, d)]) ∧
    completeEv testEvent = some (testEvent, [(doneSubject, marshalEvent testEvent)]) ∧
    (completeEvWith mBadMarshal testEvent = none ∨
      ∃ ev₁ d, completeEvWith mBadMarshal testEvent =
        some (ev₁, [(errorSubject, d), (doneSubject, "")])) := by
  obtain ⟨h1, h2, h3, h4, h5⟩ :=
    c5_terminal uFixture mBadMarshal testEvent "bad json" "b"
  refine ⟨h1 "invalid character" (by simp [uFixture]), ?_, ?_, ?_, ?_⟩
  · exact (c5_terminal uFixture mBadMarshal testEvent "x" "b").2.1 testEvent
      (by simp [uFixture])
  · exact h3 ({ testEvent with ErrorMessage := "b" },
      [(errorSubject, marshalEvent { testEvent with ErrorMessage := "b" })])
      (by simp [errorEvWith, mBadMarshal])
  · exact (c5_terminal uFixture goMarshal testEvent "x" "b").2.2.2.1
      (marshalEvent testEvent) rfl
  · exact h5 "marshal failed" rfl

/-- C9 counterexample: a route table that does contain a route with an
absent destination CIDR, yet on which `routeTableIsConfigured` is not a nil
dereference — it returns true, because the scan stops at the matching
default route that precedes the malformed one. -/
theorem c9_deref_cex :
    (⟨none, none⟩ : Route) ∈ matchFirstTable.routes ∧
    routeTableIsConfigured matchFirstTable "nat-00000001" = some true := by
  constructor
  · decide
  · rfl

/-- C9 (amended): the scan of `routeTableIsConfigured` dereferences route
pointers in order, so whenever a route with an absent destination CIDR, or a
default route with an absent NAT gateway id, is preceded only by well-formed
non-matching routes, the check is a nil dereference (a Go panic) rather than
a false return; a malformed route occurring after a matching default route is
never reached. -/
theorem c9_nil_deref (rt : RouteTable) (gw : String) (pre : List Route)
    (r : Route) (post : List Route) (hsplit : rt.routes = pre ++ r :: post)
    (hpre : ∀ r₀ ∈ pre, routeScanOk gw r₀) (hr : routePanics r) :
    routeTableIsConfigured rt gw = none := by
  unfold routeTableIsConfigured
  rw [hsplit]
  clear hsplit
  induction pre with
  | nil =>
    simp only [List.nil_append]
    rcases hr with h | ⟨h1, h2⟩
    · simp [configuredScan, h]
    · simp [configuredScan, h1, h2]
  | cons x xs ih =>
    have hrec := ih fun r₀ hr₀ => hpre r₀ (List.mem_cons_of_mem x hr₀)
    obtain ⟨d, hd, hcase⟩ := hpre x (List.mem_cons_self x xs)
    simp only [List.cons_append]
    rcases hcase with hne | ⟨g, hg, hgne⟩
    · simp [configuredScan, hd, hne, hrec]
    · by_cases hdd : d = "0.0.0.0/0"
      · subst hdd
        simp [configuredScan, hd, hg, hgne, hrec]
      · simp [configuredScan, hd, hdd, hrec]

/-- Witness for C9 (amended): a table whose nil-destination route follows a
well-formed non-matching route panics the check. -/
theorem c9_nil_deref_witness :
    routeTableIsConfigured nilDestTable "nat-00000001" = none := by
  apply c9_nil_deref nilDestTable "nat-00000001"
    [⟨some "10.0.0.0/16", some "nat-x"⟩] ⟨none, none⟩ [] rfl ?_ (Or.inl rfl)
  intro r₀ hr₀
  simp only [List.mem_singleton] at hr₀
  subst hr₀
  exact ⟨"10.0.0.0/16", rfl, Or.inl (by decide)⟩

/-- C2 counterexample: a subnet whose associated route table does contain the
exact default route to the Event's NAT gateway, yet reconciliation does not
proceed to the next subnet: a default route with an absent NAT gateway id
precedes the matching route, so the configured check panics and the run stops
with no call for the second subnet.  (Zero mutating calls are indeed issued,
but the "proceeds to the next subnet" part of the claim fails.) -/
theorem c2_idempotence_cex :
    defRoute "nat-00000001" ∈ igwFirstTable.ptRoutes ∧
    updateNat awsAdapter reconEvent2 igwFirstState =
      ([.describeRouteTables "subnet-00000001"], .panicked, igwFirstState) ∧
    (Call.describeRouteTables "subnet-00000002") ∉
      (updateNat awsAdapter reconEvent2 igwFirstState).1 := by
  refine ⟨by decide, by decide, by decide⟩

/-- C2 (amended): for every subnet of the Event's routed list (reached after
a successful prefix of the run) whose lookup returns a route table on which
the configured check succeeds — it finds the 0.0.0.0/0 route towards the
Event's NAT gateway id without first dereferencing an absent pointer —
reconciliation issues zero mutating calls for that subnet, only the lookup,
and proceeds to the next subnet. -/
theorem c2_idempotence {S E : Type} (svc : Adapter S E) (ev : Event)
    (pre : List String) (n : String) (post : List String) (s₀ s₁ s₂ : S)
    (tr₁ : List Call) (rt : RouteTable) (rest : List RouteTable)
    (hlist : ev.RoutedNetworkAWSIDs = pre ++ n :: post)
    (hpre : updateNatGo svc ev.VPCID ev.NatGatewayAWSID pre s₀ = (tr₁, .ok, s₁))
    (hdesc : svc.describeRouteTables n s₁ = (.ok (rt :: rest), s₂))
    (hconf : routeTableIsConfigured rt ev.NatGatewayAWSID = some true) :
    natStep svc ev.VPCID ev.NatGatewayAWSID n s₁ = ([.describeRouteTables n], .ok, s₂) ∧
    ∀ (trP : List Call) (r : StepRes E) (s₃ : S),
      updateNatGo svc ev.VPCID ev.NatGatewayAWSID post s₂ = (trP, r, s₃) →
      updateNat svc ev s₀ = (tr₁ ++ .describeRouteTables n :: trP, r, s₃) := by
  have hskip := natStep_skip svc ev.VPCID ev.NatGatewayAWSID n s₁ s₂ rt rest hdesc hconf
  refine ⟨hskip, ?_⟩
  intro trP r s₃ hpost
  have hcons := updateNatGo_cons_of_ok svc ev.VPCID ev.NatGatewayAWSID n post s₁ s₂ s₃
    [.describeRouteTables n] trP r hskip hpost
  have hrun := updateNatGo_append_ok svc ev.VPCID ev.NatGatewayAWSID pre (n :: post)
    s₀ s₁ s₃ tr₁ (.describeRouteTables n :: trP) r hpre (by simpa using hcons)
  unfold updateNat
  rw [hlist]
  exact hrun

/-- Witness for C2 (amended): under an adapter whose lookups always return a
configured table, each subnet costs exactly one lookup and the run proceeds
through both subnets. -/
theorem c2_idempotence_witness :
    natStep skipAdapter reconEvent2.VPCID reconEvent2.NatGatewayAWSID
      "subnet-00000001" () = ([.describeRouteTables "subnet-00000001"], .ok, ()) ∧
    updateNat skipAdapter reconEvent2 () =
      ([.describeRouteTables "subnet-00000001",
        .describeRouteTables "subnet-00000002"], .ok, ()) := by
  have h := c2_idempotence skipAdapter reconEvent2 [] "subnet-00000001"
    ["subnet-00000002"] () () () [] ⟨some "rtb-w", [defRoute "nat-00000001"]⟩ []
    rfl rfl rfl (by decide)
  refine ⟨h.1, ?_⟩
  have h2 := h.2 [.describeRouteTables "subnet-00000002"] .ok () (by decide)
  simpa using h2

/-- C3: the first adapter failure while processing some subnet makes
reconciliation return exactly that error unchanged, with a call trace
consisting only of the successfully processed prefix's calls and the failing
subnet's calls — so no call references any later subnet — and a nil return
happens only when every subnet of the list was processed without error. -/
theorem c3_failfast {S E : Type} (svc : Adapter S E) (ev : Event) (s₀ : S) :
    (∀ (done : List String) (n : String) (rest : List String) (tr₁ : List Call)
       (s₁ : S) (t : List Call) (e : E) (s₂ : S),
      ev.RoutedNetworkAWSIDs = done ++ n :: rest →
      updateNatGo svc ev.VPCID ev.NatGatewayAWSID done s₀ = (tr₁, .ok, s₁) →
      natStep svc ev.VPCID ev.NatGatewayAWSID n s₁ = (t, .err e, s₂) →
      updateNat svc ev s₀ = (tr₁ ++ t, .err e, s₂) ∧
      ∀ m ∈ rest, m ∉ done → m ≠ n →
        ∀ c ∈ tr₁ ++ t, c.mentionsSubnet m = false) ∧
    (∀ (tr : List Call) (sF : S), updateNat svc ev s₀ = (tr, .ok, sF) →
      ∀ (done : List String) (n : String) (rest : List String),
        ev.RoutedNetworkAWSIDs = done ++ n :: rest →
        ∃ (tr₁ t : List Call) (s₁ s₂ : S),
          updateNatGo svc ev.VPCID ev.NatGatewayAWSID done s₀ = (tr₁, .ok, s₁) ∧
          natStep svc ev.VPCID ev.NatGatewayAWSID n s₁ = (t, .ok, s₂)) := by
  constructor
  · intro done n rest tr₁ s₁ t e s₂ hlist hdone hstep
    have herr : updateNatGo svc ev.VPCID ev.NatGatewayAWSID (n :: rest) s₁ =
        (t, .err e, s₂) :=
      updateNatGo_cons_of_err svc ev.VPCID ev.NatGatewayAWSID n rest s₁ s₂ t e hstep
    have hrun := updateNatGo_append_ok svc ev.VPCID ev.NatGatewayAWSID done (n :: rest)
      s₀ s₁ s₂ tr₁ t (.err e) hdone herr
    constructor
    · unfold updateNat
      rw [hlist]
      exact hrun
    · intro m hm hmd hmn c hc
      rcases List.mem_append.mp hc with hc | hc
      · cases hb : c.mentionsSubnet m with
        | false => rfl
        | true =>
          have := updateNatGo_mentions svc ev.VPCID ev.NatGatewayAWSID done s₀ c
            (by rw [hdone]; exact hc) m hb
          exact absurd this hmd
      · cases hb : c.mentionsSubnet m with
        | false => rfl
        | true =>
          have := natStep_mentions svc ev.VPCID ev.NatGatewayAWSID n s₁ c
            (by rw [hstep]; exact hc) m hb
          exact absurd this hmn
  · intro tr sF hrun done n rest hlist
    unfold updateNat at hrun
    rw [hlist] at hrun
    obtain ⟨t₁, s₁, t₂, hdone, hrest, rfl⟩ :=
      updateNatGo_prefix_ok svc ev.VPCID ev.NatGatewayAWSID done (n :: rest) s₀ sF tr hrun
    obtain ⟨tn, s₂, t₃, hstep, _, rfl⟩ :=
      updateNatGo_cons_ok_inv svc ev.VPCID ev.NatGatewayAWSID n rest s₁ sF t₂ hrest
    exact ⟨t₁, tn, s₁, s₂, hdone, hstep⟩

/-- Witness for C3: a failing provider stops the run at the first subnet with
the provider's error and no call mentioning the second subnet, while an
error-free provider processes every subnet. -/
theorem c3_failfast_witness :
    updateNat failAdapter reconEvent2 () =
      ([.describeRouteTables "subnet-00000001"], .err "provider down", ()) ∧
    ((Call.describeRouteTables "subnet-00000001").mentionsSubnet
      "subnet-00000002" = false) ∧
    (∃ (tr₁ t : List Call) (s₁ s₂ : Unit),
      updateNatGo skipAdapter reconEvent2.VPCID reconEvent2.NatGatewayAWSID [] () =
        (tr₁, .ok, s₁) ∧
      natStep skipAdapter reconEvent2.VPCID reconEvent2.NatGatewayAWSID
        "subnet-00000001" s₁ = (t, .ok, s₂)) := by
  have hA := (c3_failfast failAdapter reconEvent2 ()).1 [] "subnet-00000001"
    ["subnet-00000002"] [] () [.describeRouteTables "subnet-00000001"]
    "provider down" () rfl rfl (by decide)
  refine ⟨by simpa using hA.1, ?_, ?_⟩
  · exact hA.2 "subnet-00000002" (by decide) (by decide) (by decide)
      (Call.describeRouteTables "subnet-00000001") (by decide)
  · exact (c3_failfast skipAdapter reconEvent2 ()).2
      [.describeRouteTables "subnet-00000001", .describeRouteTables "subnet-00000002"]
      () (by decide) [] "subnet-00000001" ["subnet-00000002"] rfl

/-- C1: for every subnet of the Event's routed list that has no route table
associated in the provider (reached after a successful prefix of the run,
with provider-generated ids fresh), the run issues for that subnet exactly
the lookup followed by the three mutating calls create-route-table in the
Event's VPC, associate that table with the subnet, and create-route for
0.0.0.0/0 towards the Event's NAT gateway id, in that order (`natBlock`),
and a second reconciliation run against the resulting provider state issues
only the lookup for that subnet — none of the three mutating calls. -/
theorem c1_convergence (ev : Event) (pre : List String) (n : String)
    (post : List String) (s₀ s₁ : AWSState) (tr₁ : List Call)
    (hlist : ev.RoutedNetworkAWSIDs = pre ++ n :: post)
    (hpre : updateNatGo awsAdapter ev.VPCID ev.NatGatewayAWSID pre s₀ = (tr₁, .ok, s₁))
    (hfresh : FreshIds s₁) (hun : unassociated n s₁) :
    (∀ (trP : List Call) (r : StepRes String) (sF : AWSState),
      updateNatGo awsAdapter ev.VPCID ev.NatGatewayAWSID post
        (stepState n ev.NatGatewayAWSID s₁) = (trP, r, sF) →
      updateNat awsAdapter ev s₀ =
        (tr₁ ++ natBlock ev.VPCID ev.NatGatewayAWSID n s₁.counter ++ trP, r, sF)) ∧
    (∀ (trP : List Call) (sF : AWSState),
      updateNatGo awsAdapter ev.VPCID ev.NatGatewayAWSID post
        (stepState n ev.NatGatewayAWSID s₁) = (trP, .ok, sF) →
      ∀ (pre₂ : List String) (tr₂ : List Call) (s₂ : AWSState),
        updateNatGo awsAdapter ev.VPCID ev.NatGatewayAWSID pre₂ sF = (tr₂, .ok, s₂) →
        natStep awsAdapter ev.VPCID ev.NatGatewayAWSID n s₂ =
          ([.describeRouteTables n], .ok, s₂)) := by
  have hstep := natStep_unassoc ev.VPCID ev.NatGatewayAWSID n s₁ hun hfresh
  constructor
  · intro trP r sF hpost
    have hcons := updateNatGo_cons_of_ok awsAdapter ev.VPCID ev.NatGatewayAWSID n post
      s₁ (stepState n ev.NatGatewayAWSID s₁) sF
      (natBlock ev.VPCID ev.NatGatewayAWSID n s₁.counter) trP r hstep hpost
    have hrun := updateNatGo_append_ok awsAdapter ev.VPCID ev.NatGatewayAWSID pre
      (n :: post) s₀ s₁ sF tr₁
      (natBlock ev.VPCID ev.NatGatewayAWSID n s₁.counter ++ trP) r hpre hcons
    unfold updateNat
    rw [hlist, hrun, List.append_assoc]
  · intro trP sF hpost pre₂ tr₂ s₂ hpre₂
    have hinv0 : SubnetInv n ev.NatGatewayAWSID (stepState n ev.NatGatewayAWSID s₁) :=
      inv_stepState n ev.NatGatewayAWSID s₁ hun hfresh
    have hinv1 := updateNatGo_inv_pres ev.VPCID ev.NatGatewayAWSID n post
      (stepState n ev.NatGatewayAWSID s₁) trP .ok sF hpost hinv0
    have hinv2 := updateNatGo_inv_pres ev.VPCID ev.NatGatewayAWSID n pre₂
      sF tr₂ .ok s₂ hpre₂ hinv1
    exact natStep_inv_skip ev.VPCID ev.NatGatewayAWSID n s₂ hinv2

/-- Witness for C1: from the empty provider state, the run on the fixture's
single unassociated subnet issues exactly the four-call block and a second
run over the resulting state issues only the lookup. -/
theorem c1_convergence_witness :
    updateNat awsAdapter reconEvent emptyState =
      (natBlock "vpc-0000000" "nat-00000001" "subnet-00000001" 0, .ok,
       stepState "subnet-00000001" "nat-00000001" emptyState) ∧
    natStep awsAdapter "vpc-0000000" "nat-00000001" "subnet-00000001"
      (stepState "subnet-00000001" "nat-00000001" emptyState) =
      ([.describeRouteTables "subnet-00000001"], .ok,
       stepState "subnet-00000001" "nat-00000001" emptyState) := by
  have h := c1_convergence reconEvent [] "subnet-00000001" [] emptyState emptyState []
    rfl rfl (fun t ht => absurd ht (List.not_mem_nil t)) rfl
  constructor
  · have h1 := h.1 [] .ok (stepState "subnet-00000001" "nat-00000001" emptyState) rfl
    simpa using h1
  · exact h.2 [] (stepState "subnet-00000001" "nat-00000001" emptyState) rfl [] []
      (stepState "subnet-00000001" "nat-00000001" emptyState) rfl
